import Mathlib

deriving instance DecidableEq for Except

/-!
Verification of `torch/csrc/utils/tensor_types.cpp`: legacy tensor type
name formatting (`backend_to_string`, `options_to_string`, `type_to_string`),
name resolution (`options_from_string`) with its lazily built per-family
registries, and the declared-type enumerator (`all_declared_types`).

The surrounding framework (ATen enums, `allCPUTypes` / `allCUDATypes`
enumerators, the default type configuration) is not part of the excerpt;
those pieces are modelled from the spec and carry a doc comment saying so.
-/

namespace TensorTypes

/-- Modelled from the spec: the framework's `Backend` enumeration (c10 enum,
not part of the excerpt) — "an enumerated value identifying a physical/logical
compute domain and storage layout family"; a fixed, closed set.  We include the
eight backends the formatter supports plus representative unsupported ones
(HIP and friends, quantized CUDA, undefined). -/
inductive Backend where
  | CPU | CUDA | HIP | XPU
  | SparseCPU | SparseCUDA | SparseHIP | SparseXPU
  | QuantizedCPU | QuantizedCUDA
  | HPU | Undefined
deriving DecidableEq, Repr

/-- Modelled from the spec: the framework's `ScalarType` enumeration (c10 enum,
not part of the excerpt) — "an enumerated value identifying an element data
type (floating-point widths, integer widths, boolean, complex variants)";
fixed, closed set. -/
inductive ScalarType where
  | Byte | Char | Short | Int | Long
  | Half | Float | Double
  | ComplexHalf | ComplexFloat | ComplexDouble
  | Bool
  | QInt8 | QUInt8 | QInt32
  | BFloat16
deriving DecidableEq, Repr

/-- Modelled from the spec: "`<ScalarTypeName>` is a fixed textual name per
scalar type (e.g. \"Float\", \"Double\", \"Long\")" — the framework's
`toString(ScalarType)`, a pre-defined total function, not reimplemented in
the excerpt. -/
def scalarTypeToString : ScalarType → String
  | .Byte => "Byte"
  | .Char => "Char"
  | .Short => "Short"
  | .Int => "Int"
  | .Long => "Long"
  | .Half => "Half"
  | .Float => "Float"
  | .Double => "Double"
  | .ComplexHalf => "ComplexHalf"
  | .ComplexFloat => "ComplexFloat"
  | .ComplexDouble => "ComplexDouble"
  | .Bool => "Bool"
  | .QInt8 => "QInt8"
  | .QUInt8 => "QUInt8"
  | .QInt32 => "QInt32"
  | .BFloat16 => "BFloat16"

/-- Modelled from the spec: the textual name of a backend used in the
unimplemented-backend error message ("a descriptive message naming the
offending backend"); the framework's `toString(Backend)`. -/
def backendName : Backend → String
  | .CPU => "CPU"
  | .CUDA => "CUDA"
  | .HIP => "HIP"
  | .XPU => "XPU"
  | .SparseCPU => "SparseCPU"
  | .SparseCUDA => "SparseCUDA"
  | .SparseHIP => "SparseHIP"
  | .SparseXPU => "SparseXPU"
  | .QuantizedCPU => "QuantizedCPU"
  | .QuantizedCUDA => "QuantizedCUDA"
  | .HPU => "HPU"
  | .Undefined => "Undefined"

/-- Embeds `backend_to_string` (tensor_types.cpp).  The C++ `AT_ERROR` throw
on the default case is modelled as `Except.error`. -/
def backend_to_string : Backend → Except String String
  | .CPU => .ok "torch"
  | .CUDA => .ok "torch.cuda"
  | .XPU => .ok "torch.xpu"
  | .SparseCPU => .ok "torch.sparse"
  | .SparseCUDA => .ok "torch.cuda.sparse"
  | .SparseXPU => .ok "torch.xpu.sparse"
  | .QuantizedCPU => .ok "torch.quantized"
  | .HPU => .ok "torch.hpu"
  | b => .error ("Unimplemented backend " ++ backendName b)

/-- Modelled from the spec: `at::TensorOptions`, "a bundle of settings
sufficient to construct a tensor of a given type", exposing a backend and a
dtype.  The `caffe2::TypeMeta` dtype is represented directly by its scalar
type (see `typeMetaToScalarType`). -/
structure TensorOptions where
  backend : Backend
  dtype : ScalarType
deriving DecidableEq, Repr

/-- Modelled from the spec: `at::typeMetaToScalarType`; with `TypeMeta`
represented by its scalar type, the conversion is the identity. -/
def typeMetaToScalarType (m : ScalarType) : ScalarType := m

/-- Modelled from the spec: `at::DeprecatedTypeProperties`, the
"canonical type-properties object" keyed by (Backend, ScalarType). -/
structure DeprecatedTypeProperties where
  backend : Backend
  scalarType : ScalarType
deriving DecidableEq, Repr

/-- Modelled from the spec: `.options()` on a type-properties object —
"construct a usable type-options bundle" for its (backend, scalar type). -/
def DeprecatedTypeProperties.options (t : DeprecatedTypeProperties) : TensorOptions :=
  ⟨t.backend, t.scalarType⟩

/-- Modelled from the spec: `getDeprecatedTypeProperties(backend, scalar_type)`,
the registry lookup producing the canonical type-properties object for a
(backend, scalar type) pair. -/
def getDeprecatedTypeProperties (b : Backend) (s : ScalarType) : DeprecatedTypeProperties :=
  ⟨b, s⟩

/-- Embeds `options_to_string` (tensor_types.cpp):
`backend_to_string(options.backend()) << "." <<
 toString(typeMetaToScalarType(options.dtype())) << "Tensor"`. -/
def options_to_string (options : TensorOptions) : Except String String :=
  (backend_to_string options.backend).map
    (fun ns => ns ++ "." ++ scalarTypeToString (typeMetaToScalarType options.dtype) ++ "Tensor")

/-- Embeds `type_to_string` (tensor_types.cpp):
`backend_to_string(type.backend()) << "." << toString(type.scalarType()) << "Tensor"`. -/
def type_to_string (type : DeprecatedTypeProperties) : Except String String :=
  (backend_to_string type.backend).map
    (fun ns => ns ++ "." ++ scalarTypeToString type.scalarType ++ "Tensor")

/-- Modelled from the spec: the default dispatch key read by the resolver's
`"torch.Tensor"` branch.  The framework only ever installs a dense CPU or
CUDA default tensor type, so the default dispatch key ranges over these. -/
inductive DispatchKey where
  | CPU | CUDA
deriving DecidableEq, Repr

/-- Modelled from the spec: `dispatchKeyToBackend` — "a dispatch key is
convertible to a Backend". -/
def dispatchKeyToBackend : DispatchKey → Backend
  | .CPU => .CPU
  | .CUDA => .CUDA

/-- Modelled from the spec: the `DefaultTypeConfig`, "process-wide mutable
state … specifying the currently active default backend and scalar type",
read via `get_default_dispatch_key()` / `get_default_scalar_type()`.  Following
the spec's design note it is passed explicitly to the resolver. -/
structure DefaultTypeConfig where
  default_dispatch_key : DispatchKey
  default_scalar_type : ScalarType
deriving DecidableEq, Repr

/-- All scalar types, in enumeration order. -/
def allScalarTypes : List ScalarType :=
  [.Byte, .Char, .Short, .Int, .Long, .Half, .Float, .Double,
   .ComplexHalf, .ComplexFloat, .ComplexDouble, .Bool,
   .QInt8, .QUInt8, .QInt32, .BFloat16]

/-- Modelled from the spec: whether a (backend, scalar type) pair has a legacy
string mapping — "backends/scalar-types with no legacy string mapping
(e.g. bool on sparse backends) are excluded from the registry by
construction". -/
def hasLegacyName (b : Backend) (s : ScalarType) : Bool :=
  !(s = ScalarType.Bool && (b = Backend.SparseCPU || b = Backend.SparseCUDA))

/-- Modelled from the spec: the per-family enumerator for one family — for the
given backends, every concrete type object of the family (those with a legacy
string mapping). -/
def allTypesForBackends (backends : List Backend) : List DeprecatedTypeProperties :=
  backends.flatMap (fun b =>
    (allScalarTypes.filter (fun s => hasLegacyName b s)).map
      (fun s => getDeprecatedTypeProperties b s))

/-- Modelled from the spec: `autograd::VariableType::allCPUTypes()`, "returning
every concrete type object for that family" — the CPU family covers the dense
and sparse CPU backends. -/
def allCPUTypes : List DeprecatedTypeProperties :=
  allTypesForBackends [Backend.CPU, Backend.SparseCPU]

/-- Modelled from the spec: `autograd::VariableType::allCUDATypes()` — the
CUDA family covers the dense and sparse CUDA backends. -/
def allCUDATypes : List DeprecatedTypeProperties :=
  allTypesForBackends [Backend.CUDA, Backend.SparseCUDA]

/-- The registry-building loop of `options_from_string`: for each enumerated
type, `map.emplace(type_to_string(*type), type)`.  `emplace` keeps the first
entry for a key, as does `List.lookup` on this association list.  Formatting
an enumerated type never errors (all family backends are supported); an
erroring entry would be skipped. -/
def build_type_map (types : List DeprecatedTypeProperties) :
    List (String × DeprecatedTypeProperties) :=
  types.filterMap (fun t =>
    match type_to_string t with
    | .ok n => some (n, t)
    | .error _ => none)

/-- The lazily built CPU-family registry `cpu_map` of `options_from_string`;
its contents are deterministic (built once from `allCPUTypes`). -/
def cpu_map : List (String × DeprecatedTypeProperties) :=
  build_type_map allCPUTypes

/-- The lazily built CUDA-family registry `cuda_map` of `options_from_string`. -/
def cuda_map : List (String × DeprecatedTypeProperties) :=
  build_type_map allCUDATypes

/-- The `std::mismatch` test of `options_from_string`: `"torch.cuda."` is a
character-wise prefix of the input string. -/
def isCudaName (str : String) : Bool :=
  "torch.cuda.".data.isPrefixOf str.data

/-- The lookup-and-return tail of `options_from_string`: `map->find(str)`,
throwing `ValueError("invalid type: '%s'", str)` when absent, otherwise
returning `it->second->options()`. -/
def lookup_family (map : List (String × DeprecatedTypeProperties)) (str : String) :
    Except String TensorOptions :=
  match map.lookup str with
  | some t => .ok t.options
  | none => .error ("invalid type: \'" ++ str ++ "\'")

/-- The two `std::once_flag`s of `options_from_string`: whether each family
registry has been built.  Once built, a registry's contents are the canonical
maps above (the build lambdas are fixed), so only the flags are state. -/
structure RegistryState where
  cpu_built : Bool
  cuda_built : Bool
deriving DecidableEq, Repr

/-- The entries of the CPU-family registry visible in a given state. -/
def cpuRegistryEntries (st : RegistryState) : List (String × DeprecatedTypeProperties) :=
  if st.cpu_built then cpu_map else []

/-- The entries of the CUDA-family registry visible in a given state. -/
def cudaRegistryEntries (st : RegistryState) : List (String × DeprecatedTypeProperties) :=
  if st.cuda_built then cuda_map else []

/-- Embeds `options_from_string` (tensor_types.cpp), with the registry state
passed explicitly and the default type configuration injected per the spec's
design note.  The `"torch.Tensor"` branch reads the default configuration;
otherwise the CUDA-family registry is selected iff `"torch.cuda."` is a prefix
of the string, `std::call_once` (modelled by setting the built flag) builds the
selected registry, and the string is looked up. -/
def options_from_string (st : RegistryState) (cfg : DefaultTypeConfig) (str : String) :
    Except String TensorOptions × RegistryState :=
  if str = "torch.Tensor" then
    (.ok ((getDeprecatedTypeProperties
            (dispatchKeyToBackend cfg.default_dispatch_key)
            cfg.default_scalar_type).options), st)
  else if isCudaName str then
    (lookup_family cuda_map str, { st with cuda_built := true })
  else
    (lookup_family cpu_map str, { st with cpu_built := true })

/-- The scalar-type list of `all_declared_types`, expanded from
`AT_FORALL_SCALAR_TYPES_WITH_COMPLEX_EXCEPT_COMPLEX_HALF`.  Modelled from the
spec: "all scalar types in the framework's real + complex, excluding
complex-half category (a fixed closed list)"; quantized types are deliberately
excluded. -/
def scalarTypesWithComplexExceptComplexHalf : List ScalarType :=
  [.Byte, .Char, .Short, .Int, .Long, .Half, .Float, .Double,
   .ComplexFloat, .ComplexDouble, .Bool, .BFloat16]

/-- Embeds `all_declared_types` (tensor_types.cpp): nested loops over the fixed
backend and scalar-type vectors, `continue`-skipping sparse bool (modelled by
`filterMap` returning `none`). -/
def all_declared_types : List (Backend × ScalarType) :=
  let backends : List Backend := [.CPU, .CUDA, .SparseCPU, .SparseCUDA]
  let scalar_types := scalarTypesWithComplexExceptComplexHalf
  backends.flatMap (fun backend =>
    scalar_types.filterMap (fun scalar_type =>
      if scalar_type = ScalarType.Bool &&
         (backend = Backend.SparseCUDA || backend = Backend.SparseCPU) then
        none
      else
        some (backend, scalar_type)))

/-- The backend set supported by the formatter (the non-defaulting cases of
`backend_to_string`). -/
def supportedBackends : List Backend :=
  [.CPU, .CUDA, .XPU, .SparseCPU, .SparseCUDA, .SparseXPU, .QuantizedCPU, .HPU]

/-- Spec-side mapping for claim C2: the fixed backend-to-namespace table the
claim states, written from the claim's words for comparison with
`backend_to_string`. -/
def backendNamespaceSpec : Backend → String
  | .CPU => "torch"
  | .CUDA => "torch.cuda"
  | .XPU => "torch.xpu"
  | .SparseCPU => "torch.sparse"
  | .SparseCUDA => "torch.cuda.sparse"
  | .SparseXPU => "torch.xpu.sparse"
  | .QuantizedCPU => "torch.quantized"
  | .HPU => "torch.hpu"
  | _ => ""

/-- Spec-side sequence for claim C4: iterate backends in the fixed order
[CPU, CUDA, SparseCPU, SparseCUDA], for each iterate the fixed scalar-type
list in list order, skipping (SparseCPU, Bool) and (SparseCUDA, Bool);
written from the claim's words for comparison with `all_declared_types`. -/
def declaredTypesSpec : List (Backend × ScalarType) :=
  ([Backend.CPU, Backend.CUDA, Backend.SparseCPU, Backend.SparseCUDA]).flatMap (fun b =>
    (scalarTypesWithComplexExceptComplexHalf.filter
        (fun s => !((b = Backend.SparseCPU || b = Backend.SparseCUDA) &&
                    s = ScalarType.Bool))).map
      (fun s => (b, s)))

/-- Boolean round-trip check for one enumerated type: its formatted name is
not the default sentinel and resolving it in the family its name selects
yields its options. -/
def roundtrip_ok (t : DeprecatedTypeProperties) : Bool :=
  match type_to_string t with
  | .ok n =>
      decide (lookup_family (if isCudaName n then cuda_map else cpu_map) n = .ok t.options)
        && (n != "torch.Tensor")
  | .error _ => false

theorem options_from_string_fst (st : RegistryState) (cfg : DefaultTypeConfig)
    (str : String) (h : str ≠ "torch.Tensor") :
    (options_from_string st cfg str).fst
      = lookup_family (if isCudaName str then cuda_map else cpu_map) str := by
  by_cases hc : isCudaName str = true <;> simp [options_from_string, h, hc]

theorem roundtrip_all : (allCPUTypes ++ allCUDATypes).all roundtrip_ok = true := by decide

theorem roundtrip_mem :
    ∀ t ∈ allCPUTypes ++ allCUDATypes, ∀ (st : RegistryState) (cfg : DefaultTypeConfig),
      (type_to_string t).bind (fun n => (options_from_string st cfg n).fst)
        = .ok t.options := by
  intro t ht st cfg
  have hb := List.all_eq_true.mp roundtrip_all t ht
  unfold roundtrip_ok at hb
  cases h : type_to_string t with
  | error e => rw [h] at hb; simp at hb
  | ok n =>
      rw [h] at hb
      simp only [Bool.and_eq_true, decide_eq_true_eq, bne_iff_ne, ne_eq] at hb
      obtain ⟨h1, h2⟩ := hb
      show (options_from_string st cfg n).fst = Except.ok t.options
      rw [options_from_string_fst st cfg n h2]
      exact h1

theorem lookup_isSome_mem_keys {β : Type} (l : List (String × β)) (a : String)
    (h : (l.lookup a).isSome = true) : a ∈ l.map Prod.fst := by
  induction l with
  | nil => simp [List.lookup] at h
  | cons hd tl ih =>
      rw [List.lookup] at h
      cases hb : a == hd.1 with
      | true =>
          have heq : a = hd.1 := eq_of_beq hb
          simp [heq]
      | false =>
          rw [hb] at h
          exact List.mem_cons_of_mem _ (ih h)

theorem cuda_map_keys_cuda : (cuda_map.map Prod.fst).all isCudaName = true := by decide

theorem cpu_map_keys_not_cuda :
    (cpu_map.map Prod.fst).all (fun k => !(isCudaName k)) = true := by decide

theorem cuda_map_lookup_none_of_not_cuda (str : String) (h : isCudaName str = false) :
    cuda_map.lookup str = none := by
  cases hl : cuda_map.lookup str with
  | none => rfl
  | some t =>
      have hm : str ∈ cuda_map.map Prod.fst :=
        lookup_isSome_mem_keys _ _ (by simp [hl])
      have := List.all_eq_true.mp cuda_map_keys_cuda str hm
      rw [h] at this
      cases this

theorem cpu_map_lookup_none_of_cuda (str : String) (h : isCudaName str = true) :
    cpu_map.lookup str = none := by
  cases hl : cpu_map.lookup str with
  | none => rfl
  | some t =>
      have hm : str ∈ cpu_map.map Prod.fst :=
        lookup_isSome_mem_keys _ _ (by simp [hl])
      have := List.all_eq_true.mp cpu_map_keys_not_cuda str hm
      rw [h] at this
      cases this

/-- Claim C1: round-trip — for every type enumerated by the per-family
enumerators `allCPUTypes` / `allCUDATypes`, resolving the name produced by the
formatter returns the type options matching that pair:
`options_from_string (type_to_string t) = t.options`, in every registry state
and under every default configuration. -/
theorem c1_roundtrip_resolve_format :
    ∀ t ∈ allCPUTypes ++ allCUDATypes, ∀ (st : RegistryState) (cfg : DefaultTypeConfig),
      (type_to_string t).bind (fun n => (options_from_string st cfg n).fst)
        = .ok t.options :=
  roundtrip_mem

/-- Witness for C1 at the concrete type (CPU, Float). -/
theorem c1_roundtrip_resolve_format_witness :
    (type_to_string (getDeprecatedTypeProperties Backend.CPU ScalarType.Float)).bind
        (fun n => (options_from_string ⟨false, false⟩ ⟨DispatchKey.CPU, ScalarType.Float⟩ n).fst)
      = .ok (getDeprecatedTypeProperties Backend.CPU ScalarType.Float).options :=
  c1_roundtrip_resolve_format _ (by decide) ⟨false, false⟩ ⟨DispatchKey.CPU, ScalarType.Float⟩

/-- Claim C2: for every supported backend and every scalar type the formatter
returns exactly `<backend-namespace>.<ScalarTypeName>Tensor`, with the fixed
namespace table `backendNamespaceSpec` stated by the claim. -/
theorem c2_formatter_namespaces :
    ∀ (b : Backend) (s : ScalarType), b ∈ supportedBackends →
      options_to_string ⟨b, s⟩
        = .ok (backendNamespaceSpec b ++ "." ++ scalarTypeToString s ++ "Tensor") := by
  intro b s hb
  fin_cases hb <;> rfl

/-- Witness for C2: (CPU, Float) formats to "torch.FloatTensor". -/
theorem c2_formatter_namespaces_witness :
    options_to_string ⟨Backend.CPU, ScalarType.Float⟩ = .ok "torch.FloatTensor" :=
  (c2_formatter_namespaces Backend.CPU ScalarType.Float (by decide)).trans (by decide)

/-- Claim C3: a non-sentinel string absent from its selected family registry
makes the resolver fail with an invalid-type error containing the offending
string verbatim, and the failing call removes no registry entry, changes none
(already-built registries are returned untouched), adds none beyond the
canonical one-time build, and afterwards the offending string is a key of no
registry. -/
theorem c3_unknown_name_error :
    ∀ (str : String) (st : RegistryState) (cfg : DefaultTypeConfig),
      str ≠ "torch.Tensor" →
      (if isCudaName str then cuda_map else cpu_map).lookup str = none →
      (∃ pre post,
        (options_from_string st cfg str).fst = .error (pre ++ str ++ post)) ∧
      (∀ e ∈ cpuRegistryEntries st,
          e ∈ cpuRegistryEntries (options_from_string st cfg str).snd) ∧
      (∀ e ∈ cudaRegistryEntries st,
          e ∈ cudaRegistryEntries (options_from_string st cfg str).snd) ∧
      (∀ e ∈ cpuRegistryEntries (options_from_string st cfg str).snd, e ∈ cpu_map) ∧
      (∀ e ∈ cudaRegistryEntries (options_from_string st cfg str).snd, e ∈ cuda_map) ∧
      (st.cpu_built = true →
          cpuRegistryEntries (options_from_string st cfg str).snd = cpuRegistryEntries st) ∧
      (st.cuda_built = true →
          cudaRegistryEntries (options_from_string st cfg str).snd = cudaRegistryEntries st) ∧
      (cpuRegistryEntries (options_from_string st cfg str).snd).lookup str = none ∧
      (cudaRegistryEntries (options_from_string st cfg str).snd).lookup str = none := by
  intro str st cfg hne hnone
  obtain ⟨cb, db⟩ := st
  by_cases hc : isCudaName str = true
  · have hnone2 : cuda_map.lookup str = none := by simpa [hc] using hnone
    have hcpu : cpu_map.lookup str = none := cpu_map_lookup_none_of_cuda str hc
    refine ⟨⟨"invalid type: \'", "\'", ?_⟩, ?_⟩
    · simp [options_from_string, hne, hc, lookup_family, hnone2]
    · cases cb <;> cases db <;>
        simp [options_from_string, hne, hc, cpuRegistryEntries, cudaRegistryEntries,
              hnone2, hcpu]
  · have hc2 : isCudaName str = false := by simpa using hc
    have hnone2 : cpu_map.lookup str = none := by simpa [hc2] using hnone
    have hcuda : cuda_map.lookup str = none := cuda_map_lookup_none_of_not_cuda str hc2
    refine ⟨⟨"invalid type: \'", "\'", ?_⟩, ?_⟩
    · simp [options_from_string, hne, hc2, lookup_family, hnone2]
    · cases cb <;> cases db <;>
        simp [options_from_string, hne, hc2, cpuRegistryEntries, cudaRegistryEntries,
              hnone2, hcuda]

/-- Witness for C3 at the spec's example string "torch.bogus.NotARealTensor". -/
theorem c3_unknown_name_error_witness :
    ∃ pre post,
      (options_from_string ⟨true, true⟩ ⟨DispatchKey.CPU, ScalarType.Float⟩
          "torch.bogus.NotARealTensor").fst
        = .error (pre ++ "torch.bogus.NotARealTensor" ++ post) :=
  (c3_unknown_name_error "torch.bogus.NotARealTensor" ⟨true, true⟩
    ⟨DispatchKey.CPU, ScalarType.Float⟩ (by decide) (by decide)).1

/-- Claim C4: `all_declared_types` is exactly the ordered sequence iterating
the fixed backend list and the fixed scalar-type list with the sparse-bool
exclusion, it never contains (SparseCPU, Bool) or (SparseCUDA, Bool), and its
length is 4 × |scalar list| − 2.  It is a constant, hence identical on every
call. -/
theorem c4_all_declared_types :
    all_declared_types = declaredTypesSpec ∧
    (Backend.SparseCPU, ScalarType.Bool) ∉ all_declared_types ∧
    (Backend.SparseCUDA, ScalarType.Bool) ∉ all_declared_types ∧
    all_declared_types.length
      = 4 * scalarTypesWithComplexExceptComplexHalf.length - 2 := by
  exact ⟨by decide, by decide, by decide, by decide⟩

/-- Claim C5: resolving the exact string "torch.Tensor" returns the options of
the type given by the current default configuration, and therefore always
equals resolving the formatted name of the current default
(backend, scalar type) pair. -/
theorem c5_default_sentinel :
    ∀ (st : RegistryState) (cfg : DefaultTypeConfig),
      (options_from_string st cfg "torch.Tensor").fst
          = .ok ((getDeprecatedTypeProperties
              (dispatchKeyToBackend cfg.default_dispatch_key)
              cfg.default_scalar_type).options) ∧
      (options_from_string st cfg "torch.Tensor").fst
          = (type_to_string (getDeprecatedTypeProperties
                (dispatchKeyToBackend cfg.default_dispatch_key)
                cfg.default_scalar_type)).bind
              (fun n => (options_from_string st cfg n).fst) := by
  intro st cfg
  obtain ⟨k, s⟩ := cfg
  have h1 : (options_from_string st ⟨k, s⟩ "torch.Tensor").fst
      = .ok ((getDeprecatedTypeProperties (dispatchKeyToBackend k) s).options) := by
    simp [options_from_string]
  refine ⟨h1, ?_⟩
  have hmem : getDeprecatedTypeProperties (dispatchKeyToBackend k) s
      ∈ allCPUTypes ++ allCUDATypes := by
    cases k <;> cases s <;> decide
  rw [roundtrip_mem _ hmem st ⟨k, s⟩]
  exact h1

/-- Claim C6: for non-sentinel strings the CUDA-family registry is selected iff
the string starts with the literal prefix "torch.cuda." (the character-wise
test `isCudaName`); every other string is looked up in the CPU-family registry,
where an unknown name such as "torch.wat.Tensor" fails with the invalid-type
error rather than a distinct unknown-namespace error. -/
theorem c6_family_classification :
    (∀ (str : String) (st : RegistryState) (cfg : DefaultTypeConfig),
        str ≠ "torch.Tensor" →
        (isCudaName str = true →
          options_from_string st cfg str
            = (lookup_family cuda_map str, { st with cuda_built := true })) ∧
        (isCudaName str = false →
          options_from_string st cfg str
            = (lookup_family cpu_map str, { st with cpu_built := true }))) ∧
    isCudaName "torch.cuda.FloatTensor" = true ∧
    isCudaName "torch.cuda.sparse.LongTensor" = true ∧
    isCudaName "torch.sparse.LongTensor" = false ∧
    isCudaName "torch.quantized.QInt8Tensor" = false ∧
    isCudaName "torch.xpu.FloatTensor" = false ∧
    isCudaName "torch.wat.Tensor" = false ∧
    (options_from_string ⟨false, false⟩ ⟨DispatchKey.CPU, ScalarType.Float⟩
        "torch.wat.Tensor").fst = .error "invalid type: \'torch.wat.Tensor\'" := by
  refine ⟨?_, by decide, by decide, by decide, by decide, by decide, by decide, by decide⟩
  intro str st cfg hne
  constructor
  · intro hc
    simp [options_from_string, hne, hc]
  · intro hc
    simp [options_from_string, hne, hc]

/-- Witness for C6 at a concrete CUDA-family name. -/
theorem c6_family_classification_witness :
    options_from_string ⟨false, false⟩ ⟨DispatchKey.CPU, ScalarType.Float⟩
        "torch.cuda.LongTensor"
      = (lookup_family cuda_map "torch.cuda.LongTensor", ⟨false, true⟩) :=
  (c6_family_classification.1 "torch.cuda.LongTensor" ⟨false, false⟩
    ⟨DispatchKey.CPU, ScalarType.Float⟩ (by decide)).1 (by decide)

/-- Claim C7: formatting any backend outside the supported set fails with the
unimplemented-backend error naming the offending backend; no string is
returned. -/
theorem c7_unimplemented_backend :
    ∀ (b : Backend) (s : ScalarType), b ∉ supportedBackends →
      backend_to_string b = .error ("Unimplemented backend " ++ backendName b) ∧
      options_to_string ⟨b, s⟩ = .error ("Unimplemented backend " ++ backendName b) ∧
      type_to_string ⟨b, s⟩ = .error ("Unimplemented backend " ++ backendName b) := by
  intro b s hb
  cases b <;> first
    | exact absurd (by decide) hb
    | exact ⟨rfl, rfl, rfl⟩

/-- Witness for C7 at the unsupported backend HIP. -/
theorem c7_unimplemented_backend_witness :
    backend_to_string Backend.HIP
        = .error ("Unimplemented backend " ++ backendName Backend.HIP) ∧
    options_to_string ⟨Backend.HIP, ScalarType.Float⟩
        = .error ("Unimplemented backend " ++ backendName Backend.HIP) ∧
    type_to_string ⟨Backend.HIP, ScalarType.Float⟩
        = .error ("Unimplemented backend " ++ backendName Backend.HIP) :=
  c7_unimplemented_backend Backend.HIP ScalarType.Float (by decide)

/-- Claim C9: the two formatting entry points agree — `options_to_string` on an
options bundle with backend b and dtype s produces the identical result to
`type_to_string` on the type-properties object with backend b and scalar
type s (including the error case for unsupported backends). -/
theorem c9_formatters_agree :
    ∀ (b : Backend) (s : ScalarType),
      options_to_string ⟨b, s⟩ = type_to_string ⟨b, s⟩ :=
  fun _ _ => rfl

/-- Claim C10: noninterference — for every string other than "torch.Tensor",
the resolver's outcome (returned options or invalid-type error, and the
resulting registry state) is independent of the default type configuration. -/
theorem c10_default_noninterference :
    ∀ (str : String) (st : RegistryState) (cfg1 cfg2 : DefaultTypeConfig),
      str ≠ "torch.Tensor" →
      options_from_string st cfg1 str = options_from_string st cfg2 str := by
  intro str st cfg1 cfg2 h
  simp [options_from_string, h]

/-- Witness for C10 at a concrete name under two different defaults. -/
theorem c10_default_noninterference_witness :
    options_from_string ⟨false, false⟩ ⟨DispatchKey.CPU, ScalarType.Float⟩
        "torch.cuda.DoubleTensor"
      = options_from_string ⟨false, false⟩ ⟨DispatchKey.CUDA, ScalarType.Long⟩
        "torch.cuda.DoubleTensor" :=
  c10_default_noninterference _ _ _ _ (by decide)

end TensorTypes
